import Mathlib

/-!
Verification of the NMEA 0183 decoding core of nmea-mqtt-py.

The development shallowly embeds the Python sources (src/parse_nmea/__init__.py,
src/parse_nmea/decoders/*.py, src/main.py, src/decoders/gsv.py) into Lean:
strings are Lean strings, Python floats are exact rationals extended with
infinities and NaN, fallible code returns `Except PyError`, and the publish
gate's module-level state is threaded explicitly.  Machine floating point is
abstracted by exact rational arithmetic; every numeric tolerance asserted below
is far wider than the double-rounding gap.
-/

namespace Nmea

/-- Whitespace characters removed by Python str.strip() (ASCII subset; the
repository's inputs never carry the Unicode space variants). -/
def isSpace (c : Char) : Bool :=
  c = ' ' || c = '\t' || c = '\n' || c = '\r' || c = '\x0b' || c = '\x0c'

/-- Decimal digit test, mirroring the character classes used by Python's
int/float conversions and by the regex class \d on ASCII input. -/
def isDigitC (c : Char) : Bool := '0' ≤ c && c ≤ '9'

/-- Numeric value of a decimal digit character. -/
def digitVal (c : Char) : ℕ := c.toNat - '0'.toNat

/-- Hexadecimal digit test (for int(s, 16)). -/
def isHexDigitC (c : Char) : Bool :=
  isDigitC c || ('a' ≤ c && c ≤ 'f') || ('A' ≤ c && c ≤ 'F')

/-- Numeric value of a hexadecimal digit character. -/
def hexVal (c : Char) : ℕ :=
  if isDigitC c then digitVal c
  else if 'a' ≤ c && c ≤ 'f' then c.toNat - 'a'.toNat + 10
  else c.toNat - 'A'.toNat + 10

/-- Both-ends whitespace strip, as Python str.strip(). -/
def stripWS (l : List Char) : List Char :=
  ((l.dropWhile isSpace).reverse.dropWhile isSpace).reverse

/-- String form of `stripWS`. -/
def pyStrip (s : String) : String := ⟨stripWS s.data⟩

/-- Value of a nonempty decimal digit run. -/
def digitsVal (l : List Char) : ℕ := l.foldl (fun acc c => 10 * acc + digitVal c) 0

/-- Value of a hexadecimal digit run. -/
def hexDigitsVal (l : List Char) : ℕ := l.foldl (fun acc c => 16 * acc + hexVal c) 0

/-- Leading sign split shared by Python's numeric conversions: returns
(negative?, remaining characters). -/
def splitSign (l : List Char) : Bool × List Char :=
  match l with
  | c :: r => if c = '-' then (true, r) else if c = '+' then (false, r) else (false, c :: r)
  | [] => (false, [])

/-- Python int(s): optional surrounding whitespace, optional sign, one or more
decimal digits.  (Digit-group underscores are not modelled; no input in this
repository contains them.) -/
def pyInt (s : String) : Option ℤ :=
  let cs := stripWS s.data
  let (neg, cs) := splitSign cs
  if !cs.isEmpty && cs.all isDigitC then
    some (if neg then -(digitsVal cs : ℤ) else (digitsVal cs : ℤ))
  else none

/-- Python int(s, 16): optional whitespace, optional sign, optional 0x/0X
marker, one or more hexadecimal digits. -/
def pyIntHex (s : String) : Option ℤ :=
  let cs := stripWS s.data
  let (neg, cs) := splitSign cs
  let cs :=
    match cs with
    | a :: b :: r => if a = '0' && (b = 'x' || b = 'X') then r else a :: b :: r
    | l => l
  if !cs.isEmpty && cs.all isHexDigitC then
    some (if neg then -(hexDigitsVal cs : ℤ) else (hexDigitsVal cs : ℤ))
  else none

/-- Python float value: an exact rational, or one of the non-finite doubles.
Rounding of decimal literals to binary doubles is abstracted away (exact
rational arithmetic); the claims' tolerances dominate that gap. -/
inductive PyFloat where
  | fin (q : ℚ)
  | pinf
  | ninf
  | nan
deriving DecidableEq, Repr

/-- Optional exponent suffix of a Python float literal: empty means exponent 0;
otherwise e/E, optional sign, one or more digits. -/
def parseExp (cs : List Char) : Option ℤ :=
  match cs with
  | [] => some 0
  | 'e' :: r => parseExpDigits r
  | 'E' :: r => parseExpDigits r
  | _ => none
where
  parseExpDigits (r : List Char) : Option ℤ :=
    let (neg, r) := splitSign r
    if !r.isEmpty && r.all isDigitC then
      some (if neg then -(digitsVal r : ℤ) else (digitsVal r : ℤ))
    else none

/-- Unsigned decimal float literal: digits [. digits] [exponent], with at least
one mantissa digit. -/
def pyFloatLit (cs : List Char) : Option ℚ :=
  let (ip, rest) := cs.span isDigitC
  match rest with
  | '.' :: rest2 =>
    let (fp, rest3) := rest2.span isDigitC
    if ip.isEmpty && fp.isEmpty then none
    else
      (parseExp rest3).map fun e =>
        ((digitsVal ip : ℚ) + (digitsVal fp : ℚ) / (10 : ℚ) ^ fp.length) * (10 : ℚ) ^ e
  | _ =>
    if ip.isEmpty then none
    else (parseExp rest).map fun e => (digitsVal ip : ℚ) * (10 : ℚ) ^ e

/-- Lower-casing of a character list (ASCII). -/
def lowerL (l : List Char) : List Char := l.map Char.toLower

/-- Python float(s): strip, optional sign, then inf/infinity/nan
(case-insensitive) or a decimal literal.  none models ValueError. -/
def pyFloat (s : String) : Option PyFloat :=
  let cs := stripWS s.data
  let (neg, cs) := splitSign cs
  let lc := lowerL cs
  if lc = "inf".data || lc = "infinity".data then some (if neg then .ninf else .pinf)
  else if lc = "nan".data then some .nan
  else (pyFloatLit cs).map fun q => .fin (if neg then -q else q)

/-- Negation of a Python float. -/
def PyFloat.neg : PyFloat → PyFloat
  | .fin q => .fin (-q)
  | .pinf => .ninf
  | .ninf => .pinf
  | .nan => .nan

/-- Multiplication of a Python float by a finite constant. -/
def PyFloat.mulQ : PyFloat → ℚ → PyFloat
  | .fin q, c => .fin (q * c)
  | .pinf, c => if 0 < c then .pinf else if c < 0 then .ninf else .nan
  | .ninf, c => if 0 < c then .ninf else if c < 0 then .pinf else .nan
  | .nan, _ => .nan

/-- Addition of two Python floats. -/
def PyFloat.add : PyFloat → PyFloat → PyFloat
  | .fin a, .fin b => .fin (a + b)
  | .fin _, x => x
  | .pinf, .fin _ => .pinf
  | .pinf, .pinf => .pinf
  | .pinf, _ => .nan
  | .ninf, .fin _ => .ninf
  | .ninf, .ninf => .ninf
  | .ninf, _ => .nan
  | .nan, _ => .nan

/-- Python round() on a rational: nearest integer, ties to even. -/
def roundHalfEven (q : ℚ) : ℤ :=
  let f := ⌊q⌋
  let r := q - f
  if r < 1 / 2 then f
  else if 1 / 2 < r then f + 1
  else if f % 2 = 0 then f else f + 1

/-- Failure outcomes observable past a Python call.  The first four mirror the
repository's deliberately raised failures (NMEAParsingError, NMEAStatusError,
UnknownNMEASentence, and the raw ValueError raised by dm_to_sd for a malformed
coordinate, which the spec's taxonomy names CoordinateFormatError).  The last
four model raw interpreter exceptions that escape untyped: list index out of
range, unsupported operand types, other ValueError sites (int/float conversion,
datetime range), and round() of an infinite float. -/
inductive PyError where
  | nmeaParsingError (msg : String)
  | nmeaStatusError (msg : String)
  | unknownNMEASentence (stype : String)
  | coordinateFormatError (msg : String)
  | indexError
  | typeError
  | valueError (msg : String)
  | overflowError
deriving DecidableEq, Repr

/-- Membership of a failure in the spec's design-level taxonomy
(MalformedSentence / ChecksumMismatch / FieldValidationError map onto
NMEAParsingError; BadStatus onto NMEAStatusError; UnknownSentenceType onto
UnknownNMEASentence; CoordinateFormatError onto dm_to_sd's coordinate
ValueError). -/
def isTypedFailure : PyError → Bool
  | .nmeaParsingError _ => true
  | .nmeaStatusError _ => true
  | .unknownNMEASentence _ => true
  | .coordinateFormatError _ => true
  | _ => false

/-- Python values stored in a decoded-record dictionary. -/
inductive Value where
  | vNone
  | vStr (s : String)
  | vFloat (f : PyFloat)
  | vInt (n : ℤ)
  | vList (xs : List Value)
  | vDict (d : List (String × Value))

/-- Decoded record: an insertion-ordered Python dict. -/
abbrev NmeaDict := List (String × Value)

/-- Python dict lookup d[k] (as an Option). -/
def dictGet (d : NmeaDict) (k : String) : Option Value :=
  match d with
  | [] => none
  | (k2, v) :: rest => if k2 = k then some v else dictGet rest k

/-- Python dict assignment d[k] = v: updates in place when the key is present,
appends otherwise. -/
def dictSet (d : NmeaDict) (k : String) (v : Value) : NmeaDict :=
  match d with
  | [] => [(k, v)]
  | (k2, w) :: rest => if k2 = k then (k2, v) :: rest else (k2, w) :: dictSet rest k v

/-- Python string repetition s * n: empty for a non-positive count. -/
def strRep (s : String) (n : ℤ) : String :=
  ⟨(List.replicate n.toNat s.data).flatten⟩

/-- Python multiplication value * n for an int n, as the decoders apply it to a
dict entry: sequence repetition on a string, numeric multiplication on numbers,
TypeError on None. -/
def pyMulInt (v : Value) (n : ℤ) : Except PyError Value :=
  match v with
  | .vStr s => .ok (.vStr (strRep s n))
  | .vFloat f => .ok (.vFloat (f.mulQ (n : ℚ)))
  | .vInt m => .ok (.vInt (m * n))
  | _ => .error .typeError

/-- Upper-casing of a string (ASCII, as the sentences are). -/
def upperStr (s : String) : String := ⟨s.data.map Char.toUpper⟩

/-- Lower-casing of a string. -/
def lowerStr (s : String) : String := ⟨lowerL s.data⟩

/-- Python slice s[:n]. -/
def sliceTo (s : String) (n : ℕ) : String := ⟨s.data.take n⟩

/-- Python slice s[n:]. -/
def sliceFrom (s : String) (n : ℕ) : String := ⟨s.data.drop n⟩

/-- Python slice s[a:b] (for a ≤ b). -/
def slice (s : String) (a b : ℕ) : String := ⟨(s.data.take b).drop a⟩

/-- Index of the first occurrence of a character, as Python str.find (none for
-1). -/
def idxOf (c : Char) : List Char → Option ℕ
  | [] => none
  | x :: r => if x = c then some 0 else (idxOf c r).map (· + 1)

/-- Python str.split(sep) for a one-character separator: keeps empty pieces and
always returns at least one piece. -/
def splitChar (sep : Char) : List Char → List (List Char)
  | [] => [[]]
  | c :: rest =>
    let r := splitChar sep rest
    if c = sep then [] :: r
    else
      match r with
      | h :: t => (c :: h) :: t
      | [] => [[c]]

/-- String form of `splitChar`. -/
def pySplit (s : String) (sep : Char) : List String :=
  (splitChar sep s.data).map fun l => ⟨l⟩

/-- Python list access parts[i]: IndexError when out of range. -/
def pyGet (l : List String) (i : ℕ) : Except PyError String :=
  match l.get? i with
  | some x => .ok x
  | none => .error .indexError

/-- Test for the leading '$' delimiter (str.startswith). -/
def startsDollar (s : String) : Bool :=
  match s.data with
  | '$' :: _ => true
  | _ => false

/-- Python round() on a float: ValueError on NaN, OverflowError on an infinity. -/
def pyRound : PyFloat → Except PyError ℤ
  | .fin q => .ok (roundHalfEven q)
  | .nan => .error (.valueError "cannot convert float NaN to integer")
  | .pinf => .error .overflowError
  | .ninf => .error .overflowError

/-- Failure of a Python numeric conversion where the source does not catch it
(raw ValueError). -/
def ofOpt {α : Type} (o : Option α) : Except PyError α :=
  match o with
  | some x => .ok x
  | none => .error (.valueError "invalid literal")

/-- Zero-padded decimal rendering, as the format specifier 0w for the widths
and value ranges the source produces. -/
def padZ (w : ℕ) (n : ℤ) : String :=
  let s := toString n
  if s.length < w then (⟨List.replicate (w - s.length) '0'⟩ : String) ++ s else s

/-- Embedding of checksum (src/parse_nmea/__init__.py): running XOR of the
character values of the span. -/
def checksum (l : List Char) : ℕ := l.foldl (fun acc c => acc ^^^ c.toNat) 0

/-- Embedding of parse_time (src/parse_nmea/__init__.py): slices [:2], [2:4],
[4:] converted by int/int/round(float(...)); TypeError (None input) and
ValueError (bad digits, round of NaN) are caught and yield None; the
OverflowError of round on an infinite float is not caught and escapes. -/
def parse_time (t : Option String) : Except PyError (Option String) :=
  match t with
  | none => .ok none
  | some s =>
    match pyInt (sliceTo s 2), pyInt (slice s 2 4), pyFloat (sliceFrom s 4) with
    | some h, some m, some f =>
      match f with
      | .fin q =>
        .ok (some (padZ 2 h ++ ":" ++ padZ 2 m ++ ":" ++ padZ 2 (roundHalfEven q)))
      | .nan => .ok none
      | _ => .error .overflowError
    | _, _, _ => .ok none

/-- Gregorian leap-year rule used by datetime. -/
def isLeap (y : ℤ) : Bool := y % 4 = 0 && (y % 100 ≠ 0 || y % 400 = 0)

/-- Length of a month as datetime validates it. -/
def daysInMonth (y m : ℤ) : ℤ :=
  if m = 1 || m = 3 || m = 5 || m = 7 || m = 8 || m = 10 || m = 12 then 31
  else if m = 4 || m = 6 || m = 9 || m = 11 then 30
  else if isLeap y then 29 else 28

/-- Range checks of the datetime constructor (ValueError outside them). -/
def dtValid (y mo d h mi s : ℤ) : Bool :=
  1 ≤ y && y ≤ 9999 && 1 ≤ mo && mo ≤ 12 && 1 ≤ d && d ≤ daysInMonth y mo &&
  0 ≤ h && h ≤ 23 && 0 ≤ mi && mi ≤ 59 && 0 ≤ s && s ≤ 59

/-- Embedding of parse_datetime (src/parse_nmea/__init__.py): DDMMYY date plus
HHMMSS.SS time; a 2-digit year below 2000 is shifted into the 2000s; conversion
and range failures are uncaught raw errors (this routine is stricter than
parse_time). -/
def parse_datetime (date_str time_str : String) : Except PyError String := do
  let hours ← ofOpt (pyInt (sliceTo time_str 2))
  let minutes ← ofOpt (pyInt (slice time_str 2 4))
  let f ← ofOpt (pyFloat (sliceFrom time_str 4))
  let seconds ← pyRound f
  let day ← ofOpt (pyInt (sliceTo date_str 2))
  let month ← ofOpt (pyInt (slice date_str 2 4))
  let year0 ← ofOpt (pyInt (sliceFrom date_str 4))
  let year := if year0 < 2000 then year0 + 2000 else year0
  if dtValid year month day hours minutes seconds then
    .ok (padZ 4 year ++ "-" ++ padZ 2 month ++ "-" ++ padZ 2 day ++ "T" ++
         padZ 2 hours ++ ":" ++ padZ 2 minutes ++ ":" ++ padZ 2 seconds)
  else .error (.valueError "datetime field out of range")

/-- Embedding of is_number (src/parse_nmea/__init__.py): float(s) succeeds. -/
def is_number (s : String) : Bool := (pyFloat s).isSome

/-- Match of the anchored regex (\d+)(\d\d\.\d+) against a coordinate string:
the whole string is digits with a single dot, at least three digits before it
and at least one after; the greedy first group takes all but two of the leading
digits. -/
def dmMatch (cs : List Char) : Option (List Char × List Char) :=
  match idxOf '.' cs with
  | none => none
  | some k =>
    let pre := cs.take k
    let post := cs.drop (k + 1)
    if 3 ≤ k && pre.all isDigitC && !post.isEmpty && post.all isDigitC then
      some (pre.take (k - 2), pre.drop (k - 2) ++ '.' :: post)
    else none

/-- Rational value of a matched group fed back through float() (the groups are
always finite decimal literals; the default is unreachable). -/
def litVal (cs : List Char) : ℚ :=
  match pyFloat ⟨cs⟩ with
  | some (.fin q) => q
  | _ => 0

/-- Embedding of dm_to_sd (src/parse_nmea/__init__.py): None or a non-numeric
string yield None; "" or "0" yield 0.0; a numeric string matching the
degrees/minutes pattern converts as float(d) + float(m)/60; a numeric string
not matching raises the coordinate ValueError. -/
def dm_to_sd (dm : Option String) : Except PyError (Option ℚ) :=
  match dm with
  | none => .ok none
  | some s =>
    if !is_number s then .ok none
    else if s = "" || s = "0" then .ok (some 0)
    else
      match dmMatch s.data with
      | some (d, m) => .ok (some (litVal d + litVal m / 60))
      | none =>
        .error (.coordinateFormatError
          ("Geographic coordinate value '" ++ s ++ "' is not valid DDDMM.MMM"))

/-- Embedding of parse_latitude (src/parse_nmea/__init__.py): negates on
hemisphere 'S'; negating the None of an absent coordinate raises TypeError. -/
def parse_latitude (latitude : Option String) (hemisphere : String) :
    Except PyError (Option ℚ) := do
  let val ← dm_to_sd latitude
  if hemisphere = "S" then
    match val with
    | some q => .ok (some (-q))
    | none => .error .typeError
  else .ok val

/-- Embedding of parse_longitude (src/parse_nmea/__init__.py): negates on 'W'. -/
def parse_longitude (longitude : Option String) (hemisphere : String) :
    Except PyError (Option ℚ) := do
  let val ← dm_to_sd longitude
  if hemisphere = "W" then
    match val with
    | some q => .ok (some (-q))
    | none => .error .typeError
  else .ok val

/-- Embedding of parse_float (src/parse_nmea/__init__.py): None or empty in,
None out; unparseable text maps to None rather than failing. -/
def parse_float (fs : Option String) : Option PyFloat :=
  match fs with
  | none => none
  | some s => if s = "" then none else pyFloat s

/-- Embedding of parse_int (src/parse_nmea/__init__.py). -/
def parse_int (is0 : Option String) : Option ℤ :=
  match is0 with
  | none => none
  | some s => if s = "" then none else pyInt s

/-- Dict value of an optional float. -/
def ofFloatV : Option PyFloat → Value
  | none => .vNone
  | some f => .vFloat f

/-- Dict value of an optional int. -/
def ofIntV : Option ℤ → Value
  | none => .vNone
  | some n => .vInt n

/-- Dict value of an optional string. -/
def ofStrV : Option String → Value
  | none => .vNone
  | some s => .vStr s

/-- Dict value of an optional rational (a signed coordinate). -/
def ofRatV : Option ℚ → Value
  | none => .vNone
  | some q => .vFloat (.fin q)

/-- Multiplication value_knot *= c on the result of parse_float: a None speed
raises TypeError (unsupported operand types). -/
def mulFloatOpt (v : Option PyFloat) (c : ℚ) : Except PyError (Option PyFloat) :=
  match v with
  | some f => .ok (some (f.mulQ c))
  | none => .error .typeError

/-- Embedding of decode (src/parse_nmea/decoders/gga.py). -/
def ggaDecode (parts : List String) : Except PyError NmeaDict := do
  let p1 ← pyGet parts 1
  let t ← parse_time (some (slice p1 0 6))
  let p2 ← pyGet parts 2
  let p3 ← pyGet parts 3
  let lat ← parse_latitude (some p2) p3
  let p4 ← pyGet parts 4
  let p5 ← pyGet parts 5
  let lon ← parse_longitude (some p4) p5
  let p6 ← pyGet parts 6
  let p7 ← pyGet parts 7
  let p8 ← pyGet parts 8
  let p9 ← pyGet parts 9
  let data : NmeaDict :=
    [("timeUTC", ofStrV t), ("latitude", ofRatV lat), ("longitude", ofRatV lon),
     ("fix_quality", .vStr p6), ("num_satellites", ofIntV (parse_int (some p7))),
     ("hdop", ofFloatV (parse_float (some p8))),
     ("altitude_meter", ofFloatV (parse_float (some p9)))]
  let p10 ← pyGet parts 10
  let altitude_unit := upperStr p10
  if altitude_unit ≠ "M" then
    .error (.nmeaParsingError
      ("Unknown altitude units '" ++ altitude_unit ++ "' (expected 'M')"))
  else .ok data

/-- Embedding of decode (src/parse_nmea/decoders/gll.py). -/
def gllDecode (parts : List String) : Except PyError NmeaDict := do
  let p6 ← pyGet parts 6
  let status := upperStr p6
  if status ≠ "A" then
    .error (.nmeaStatusError ("Bad status ('" ++ status ++ "') for sentence type 'GLL'"))
  else do
    let p1 ← pyGet parts 1
    let p2 ← pyGet parts 2
    let lat ← parse_latitude (some p1) p2
    let p3 ← pyGet parts 3
    let p4 ← pyGet parts 4
    let lon ← parse_longitude (some p3) p4
    let p5 ← pyGet parts 5
    let t ← parse_time (some p5)
    let mode : Value :=
      match parts.get? 7 with
      | some s =>
        match s.data with
        | c :: _ => .vStr ⟨[c]⟩
        | [] => .vNone
      | none => .vNone
    .ok [("latitude", ofRatV lat), ("longitude", ofRatV lon),
         ("timeUTC", ofStrV t), ("gll_mode", mode)]

/-- Embedding of decode (src/parse_nmea/decoders/hdt.py). -/
def hdtDecode (parts : List String) : Except PyError NmeaDict := do
  let p2 ← pyGet parts 2
  if upperStr p2 ≠ "T" then
    .error (.nmeaParsingError ("Unknown HDT reference '" ++ p2 ++ "' (expected 'T')"))
  else do
    let p1 ← pyGet parts 1
    .ok [("hdg_true", ofFloatV (parse_float (some p1)))]

/-- Embedding of decode (src/parse_nmea/decoders/mda.py). -/
def mdaDecode (parts : List String) : Except PyError NmeaDict := do
  let p1 ← pyGet parts 1
  let p3 ← pyGet parts 3
  let p5 ← pyGet parts 5
  let p7 ← pyGet parts 7
  let p9 ← pyGet parts 9
  let p11 ← pyGet parts 11
  let p13 ← pyGet parts 13
  let p15 ← pyGet parts 15
  let p17 ← pyGet parts 17
  let p19 ← pyGet parts 19
  let pb := parse_float (some p3)
  let data : NmeaDict :=
    [("pressure_inches", ofFloatV (parse_float (some p1))),
     ("pressure_bars", ofFloatV pb),
     ("temperature_air_celsius", ofFloatV (parse_float (some p5))),
     ("temperature_water_celsius", ofFloatV (parse_float (some p7))),
     ("humidity_relative", ofFloatV (parse_float (some p9))),
     ("dew_point_celsius", ofFloatV (parse_float (some p11))),
     ("twd_true", ofFloatV (parse_float (some p13))),
     ("twd_magnetic", ofFloatV (parse_float (some p15))),
     ("tws_knots", ofFloatV (parse_float (some p17))),
     ("tws_mps", ofFloatV (parse_float (some p19)))]
  let mb : Value :=
    match pb with
    | some f => .vFloat (f.mulQ 1000)
    | none => .vNone
  .ok (dictSet data "pressure_millibars" mb)

/-- Embedding of decode (src/parse_nmea/decoders/mwv.py): status gate, true
vs. apparent reference, unit conversion to knots. -/
def mwvDecode (parts : List String) : Except PyError NmeaDict := do
  let p5 ← pyGet parts 5
  let status := upperStr p5
  if status ≠ "A" then
    .error (.nmeaStatusError ("Bad status ('" ++ status ++ "') for sentence type 'MWV'"))
  else do
    let p2 ← pyGet parts 2
    let reference := upperStr p2
    let keys ←
      if reference = "T" then Except.ok ("twa", "tws_knots")
      else if reference = "R" || reference = "" then Except.ok ("awa", "aws_knots")
      else .error (.nmeaParsingError
        ("Unknown MWV reference '" ++ reference ++ "' (expected 'T' or 'R')"))
    let p3 ← pyGet parts 3
    let value_knot0 := parse_float (some p3)
    let p4 ← pyGet parts 4
    let unit := upperStr p4
    let value_knot ←
      if unit = "N" then Except.ok value_knot0
      else if unit = "M" then mulFloatOpt value_knot0 (1.94384 : ℚ)
      else if unit = "K" then mulFloatOpt value_knot0 (0.539957 : ℚ)
      else .error (.nmeaParsingError
        ("Unknown MWV unit '" ++ unit ++ "' (expected 'M', 'K', or 'N')"))
    let p1 ← pyGet parts 1
    .ok [(keys.1, ofFloatV (parse_float (some p1))), (keys.2, ofFloatV value_knot)]

/-- Embedding of decode (src/parse_nmea/decoders/rmc.py): the trailing
"magnetic_variation" entry holds the raw field string, and the 'W' branch
multiplies that dict entry by -1 (string repetition in Python). -/
def rmcDecode (parts : List String) : Except PyError NmeaDict := do
  let p2 ← pyGet parts 2
  let status := upperStr p2
  if status ≠ "A" then
    .error (.nmeaStatusError ("Bad RMC status '" ++ status ++ "' (expected 'A')"))
  else do
    let p9 ← pyGet parts 9
    let p1 ← pyGet parts 1
    let dt ← parse_datetime p9 p1
    let p3 ← pyGet parts 3
    let p4 ← pyGet parts 4
    let lat ← parse_latitude (some p3) p4
    let p5 ← pyGet parts 5
    let p6 ← pyGet parts 6
    let lon ← parse_longitude (some p5) p6
    let p7 ← pyGet parts 7
    let p8 ← pyGet parts 8
    let p10 ← pyGet parts 10
    let data : NmeaDict :=
      [("datetimeUTC", .vStr dt), ("status", .vStr p2),
       ("latitude", ofRatV lat), ("longitude", ofRatV lon),
       ("sog_knots", ofFloatV (parse_float (some p7))),
       ("cog_true", ofFloatV (parse_float (some p8))),
       ("magnetic_variation", .vStr p10)]
    let p11 ← pyGet parts 11
    if upperStr p11 = "W" then do
      let cur := (dictGet data "magnetic_variation").getD .vNone
      let neg ← pyMulInt cur (-1)
      .ok (dictSet data "magnetic_variation" neg)
    else .ok data

/-- Embedding of decode (src/parse_nmea/decoders/rot.py). -/
def rotDecode (parts : List String) : Except PyError NmeaDict := do
  let p2 ← pyGet parts 2
  let v ←
    if upperStr p2 = "A" then do
      let p1 ← pyGet parts 1
      Except.ok (ofFloatV (parse_float (some p1)))
    else Except.ok Value.vNone
  .ok [("rate_of_turn", v)]

/-- Embedding of decode (src/parse_nmea/decoders/rsa.py). -/
def rsaDecode (parts : List String) : Except PyError NmeaDict := do
  let p2 ← pyGet parts 2
  let v ←
    if upperStr p2 = "A" then do
      let p1 ← pyGet parts 1
      Except.ok (ofFloatV (parse_float (some p1)))
    else Except.ok Value.vNone
  .ok [("rudder_angle", v)]

/-- Embedding of decode (src/parse_nmea/decoders/vlw.py). -/
def vlwDecode (parts : List String) : Except PyError NmeaDict := do
  let p1 ← pyGet parts 1
  let p3 ← pyGet parts 3
  let p5 ← pyGet parts 5
  let p7 ← pyGet parts 7
  .ok [("water_total_nm", ofFloatV (parse_float (some p1))),
       ("water_since_reset_nm", ofFloatV (parse_float (some p3))),
       ("ground_total_nm", ofFloatV (parse_float (some p5))),
       ("ground_since_reset_nm", ofFloatV (parse_float (some p7)))]

/-- Embedding of decode (src/parse_nmea/decoders/vtg.py). -/
def vtgDecode (parts : List String) : Except PyError NmeaDict := do
  let p1 ← pyGet parts 1
  let p3 ← pyGet parts 3
  let p5 ← pyGet parts 5
  let p7 ← pyGet parts 7
  .ok [("cog_true", ofFloatV (parse_float (some p1))),
       ("cog_magnetic", ofFloatV (parse_float (some p3))),
       ("sog_knots", ofFloatV (parse_float (some p5))),
       ("sog_kph", ofFloatV (parse_float (some p7)))]

/-- Embedding of decode (src/parse_nmea/decoders/dpt.py): the derived total
depth catches the TypeError of adding a missing side and stores None. -/
def dptDecode (parts : List String) : Except PyError NmeaDict := do
  let p1 ← pyGet parts 1
  let p2 ← pyGet parts 2
  let a := parse_float (some p1)
  let b := parse_float (some p2)
  let data : NmeaDict :=
    [("depth_below_transducer_meters", ofFloatV a),
     ("transducer_depth_meters", ofFloatV b)]
  let sum : Value :=
    match a, b with
    | some x, some y => .vFloat (x.add y)
    | _, _ => .vNone
  .ok (dictSet data "water_depth_meters" sum)

/-- Embedding of decode (src/parse_nmea/decoders/vwr.py): the 'L' side branch
multiplies the "awa" dict entry by -1 (TypeError when the angle is absent). -/
def vwrDecode (parts : List String) : Except PyError NmeaDict := do
  let p1 ← pyGet parts 1
  let p3 ← pyGet parts 3
  let p5 ← pyGet parts 5
  let p7 ← pyGet parts 7
  let data : NmeaDict :=
    [("awa", ofFloatV (parse_float (some p1))),
     ("aws_knots", ofFloatV (parse_float (some p3))),
     ("aws_mps", ofFloatV (parse_float (some p5))),
     ("aws_kph", ofFloatV (parse_float (some p7)))]
  let p2 ← pyGet parts 2
  if upperStr p2 = "L" then do
    let cur := (dictGet data "awa").getD .vNone
    let neg ← pyMulInt cur (-1)
    .ok (dictSet data "awa" neg)
  else .ok data

/-- Loop index set of range(4, n - 4, 4), with Python's empty range for a
bound at or below the start (natural subtraction clamps exactly as Python's
negative bound empties the range). -/
def rangeStep4 (n : ℕ) : List ℕ :=
  (List.range n).filter fun i => 4 ≤ i && i % 4 = 0 && i < n - 4

/-- Embedding of the GSV branch of parse_nmea (src/main.py) whose satellite
loop is identical to decode in src/decoders/gsv.py: groups of four fields are
collected for loop indices 4, 8, … strictly below len(parts) - 4, guarded by
len(parts) >= i + 4. -/
def gsvDecode (parts : List String) : Except PyError NmeaDict := do
  let p1 ← pyGet parts 1
  let p2 ← pyGet parts 2
  let p3 ← pyGet parts 3
  let sats : List Value :=
    (rangeStep4 parts.length).filterMap fun i =>
      if parts.length ≥ i + 4 then
        some (.vDict
          [("satellite_prn", ofIntV (parse_int (parts.get? i))),
           ("elevation", ofIntV (parse_int (parts.get? (i + 1)))),
           ("azimuth", ofIntV (parse_int (parts.get? (i + 2)))),
           ("snr", ofIntV (parse_int (parts.get? (i + 3))))])
      else none
  .ok [("num_messages", ofIntV (parse_int (some p1))),
       ("message_number", ofIntV (parse_int (some p2))),
       ("num_satellites", ofIntV (parse_int (some p3))),
       ("satellites", .vList sats)]

/-- Embedding of the checksum block of parse (src/parse_nmea/__init__.py lines
36-43): when a '*' is present, the XOR of the span between '$' and '*' must
equal the int(..., 16) value of the suffix, else the checksum-mismatch failure;
a non-hexadecimal suffix raises the raw int-conversion ValueError; on success
the checksum suffix is stripped.  Without a '*' the sentence passes unchanged. -/
def checksumPhase (sentence : String) : Except PyError String :=
  match idxOf '*' sentence.data with
  | none => .ok sentence
  | some a => do
    let cs := checksum ((sentence.data.take a).drop 1)
    let csMsg ←
      match pyIntHex (sliceFrom sentence (a + 1)) with
      | some v => Except.ok v
      | none => .error (.valueError "invalid literal for int with base 16")
    if (cs : ℤ) ≠ csMsg then
      .error (.nmeaParsingError ("Checksum mismatch for sentence " ++ sentence))
    else .ok (sliceTo sentence a)

/-- Decoder registry: the importlib lookup of parse resolves
parse_nmea.decoders.{type.lower()} against exactly the twelve modules present
in src/parse_nmea/decoders; any other name (including the empty or truncated
code of a too-short sentence) is ModuleNotFoundError. -/
def decoderFor (t : String) : Option (List String → Except PyError NmeaDict) :=
  if t = "dpt" then some dptDecode
  else if t = "gga" then some ggaDecode
  else if t = "gll" then some gllDecode
  else if t = "hdt" then some hdtDecode
  else if t = "mda" then some mdaDecode
  else if t = "mwv" then some mwvDecode
  else if t = "rmc" then some rmcDecode
  else if t = "rot" then some rotDecode
  else if t = "rsa" then some rsaDecode
  else if t = "vlw" then some vlwDecode
  else if t = "vtg" then some vtgDecode
  else if t = "vwr" then some vwrDecode
  else none

/-- Embedding of parse (src/parse_nmea/__init__.py): '$' gate, checksum phase,
strip and comma split, type code parts[0][3:], registry dispatch
(ModuleNotFoundError becomes UnknownNMEASentence carrying the code), then the
sentence_type and timestamp entries are appended.  The wall-clock millisecond
stamp int(time.time() * 1000 + 0.5) is abstracted as the parameter now. -/
def parse (now : ℤ) (sentence : String) : Except PyError NmeaDict :=
  if !startsDollar sentence then
    .error (.nmeaParsingError ("Invalid NMEA sentence '" ++ sentence ++ "'"))
  else do
    let stripped ← checksumPhase sentence
    let parts := pySplit (pyStrip stripped) ','
    let sentence_type := sliceFrom (parts.headD "") 3
    match decoderFor (lowerStr sentence_type) with
    | none => .error (.unknownNMEASentence sentence_type)
    | some d => do
      let data ← d parts
      .ok (dictSet (dictSet data "sentence_type" (.vStr (upperStr sentence_type)))
            "timestamp" (.vInt now))

/-- Module-level Publish State of src/main.py: last_published is a
defaultdict(lambda: 0), so every unseen type reads as timestamp 0. -/
structure GateState where
  last_published : String → ℚ

/-- Initial Publish State (the fresh defaultdict). -/
def initGate : GateState := ⟨fun _ => 0⟩

/-- Embedding of the rate-gate portion of publish_nmea (src/main.py lines
49-66): a type absent from PUBLISH_INTERVALS returns without publishing; a
record within the interval of the last published timestamp is skipped; an
eligible record is published and the timestamp recorded only when parsing
succeeded and produced data (the decodeOk flag).  Returns the next state and
whether the record was handed to the MQTT sink. -/
def publishGate (intervals : String → Option ℚ) (st : GateState) (stype : String)
    (now : ℚ) (decodeOk : Bool) : GateState × Bool :=
  match intervals stype with
  | none => (st, false)
  | some iv =>
    if now - st.last_published stype < iv then (st, false)
    else if decodeOk then
      (⟨fun k => if k = stype then now else st.last_published k⟩, true)
    else (st, false)

/-- Fold of the publish gate over a list of successfully decoded records
(type, timestamp), returning each record's emit decision. -/
def gateRun (intervals : String → Option ℚ) : GateState → List (String × ℚ) → List Bool
  | _, [] => []
  | st, (ty, t) :: rest =>
    let r := publishGate intervals st ty t true
    r.2 :: gateRun intervals r.1 rest

/-- Sample publish policy of config_sample.py restricted to the one type the
claims exercise: GGA at a 10000 ms minimum interval. -/
def intervalsGGA : String → Option ℚ :=
  fun t => if t = "GGA" then some 10000 else none

/-- Hexadecimal digit character (lower case). -/
def hexDigitChar (d : ℕ) : Char :=
  if d < 10 then Char.ofNat ('0'.toNat + d) else Char.ofNat ('a'.toNat + (d - 10))

/-- Two-character hexadecimal rendering of a checksum byte, as the claims'
round-trip property appends it after '*'. -/
def hex2 (n : ℕ) : String := ⟨[hexDigitChar (n / 16), hexDigitChar (n % 16)]⟩

lemma mwv_bad_status (p0 a r sp u st : String) (tail : List String)
    (hst : upperStr st ≠ "A") :
    mwvDecode (p0 :: a :: r :: sp :: u :: st :: tail) =
      .error (.nmeaStatusError ("Bad status ('" ++ upperStr st ++ "') for sentence type 'MWV'")) := by
  simp only [mwvDecode, pyGet, List.get?, bind, Except.bind]
  rw [if_pos hst]

lemma mwv_unknown_reference (p0 a r sp u st : String) (tail : List String)
    (hst : upperStr st = "A") (h1 : upperStr r ≠ "T") (h2 : upperStr r ≠ "R")
    (h3 : upperStr r ≠ "") :
    mwvDecode (p0 :: a :: r :: sp :: u :: st :: tail) =
      .error (.nmeaParsingError
        ("Unknown MWV reference '" ++ upperStr r ++ "' (expected 'T' or 'R')")) := by
  simp only [mwvDecode, pyGet, List.get?, bind, Except.bind]
  simp [hst, h1, h2, h3]

lemma mwv_true_knots (p0 a r sp u st : String) (tail : List String)
    (hst : upperStr st = "A") (hr : upperStr r = "T") (hu : upperStr u = "N") :
    mwvDecode (p0 :: a :: r :: sp :: u :: st :: tail) =
      .ok [("twa", ofFloatV (parse_float (some a))),
           ("tws_knots", ofFloatV (parse_float (some sp)))] := by
  simp only [mwvDecode, pyGet, List.get?, bind, Except.bind]
  simp [hst, hr, hu]

lemma mwv_true_ms (p0 a r sp u st : String) (tail : List String) (f : PyFloat)
    (hst : upperStr st = "A") (hr : upperStr r = "T")
    (hf : parse_float (some sp) = some f) (hu : upperStr u = "M") :
    mwvDecode (p0 :: a :: r :: sp :: u :: st :: tail) =
      .ok [("twa", ofFloatV (parse_float (some a))),
           ("tws_knots", .vFloat (f.mulQ (1.94384 : ℚ)))] := by
  simp only [mwvDecode, pyGet, List.get?, bind, Except.bind]
  simp [hst, hr, hu, hf, mulFloatOpt, ofFloatV]

lemma mwv_true_kph (p0 a r sp u st : String) (tail : List String) (f : PyFloat)
    (hst : upperStr st = "A") (hr : upperStr r = "T")
    (hf : parse_float (some sp) = some f) (hu : upperStr u = "K") :
    mwvDecode (p0 :: a :: r :: sp :: u :: st :: tail) =
      .ok [("twa", ofFloatV (parse_float (some a))),
           ("tws_knots", .vFloat (f.mulQ (0.539957 : ℚ)))] := by
  simp only [mwvDecode, pyGet, List.get?, bind, Except.bind]
  simp [hst, hr, hu, hf, mulFloatOpt, ofFloatV]

lemma mwv_app_knots (p0 a r sp u st : String) (tail : List String)
    (hst : upperStr st = "A") (hr : upperStr r = "R" ∨ upperStr r = "")
    (hu : upperStr u = "N") :
    mwvDecode (p0 :: a :: r :: sp :: u :: st :: tail) =
      .ok [("awa", ofFloatV (parse_float (some a))),
           ("aws_knots", ofFloatV (parse_float (some sp)))] := by
  simp only [mwvDecode, pyGet, List.get?, bind, Except.bind]
  rcases hr with hr | hr <;> simp [hst, hr, hu]

lemma mwv_app_ms (p0 a r sp u st : String) (tail : List String) (f : PyFloat)
    (hst : upperStr st = "A") (hr : upperStr r = "R" ∨ upperStr r = "")
    (hf : parse_float (some sp) = some f) (hu : upperStr u = "M") :
    mwvDecode (p0 :: a :: r :: sp :: u :: st :: tail) =
      .ok [("awa", ofFloatV (parse_float (some a))),
           ("aws_knots", .vFloat (f.mulQ (1.94384 : ℚ)))] := by
  simp only [mwvDecode, pyGet, List.get?, bind, Except.bind]
  rcases hr with hr | hr <;> simp [hst, hr, hu, hf, mulFloatOpt, ofFloatV]

lemma mwv_app_kph (p0 a r sp u st : String) (tail : List String) (f : PyFloat)
    (hst : upperStr st = "A") (hr : upperStr r = "R" ∨ upperStr r = "")
    (hf : parse_float (some sp) = some f) (hu : upperStr u = "K") :
    mwvDecode (p0 :: a :: r :: sp :: u :: st :: tail) =
      .ok [("awa", ofFloatV (parse_float (some a))),
           ("aws_knots", .vFloat (f.mulQ (0.539957 : ℚ)))] := by
  simp only [mwvDecode, pyGet, List.get?, bind, Except.bind]
  rcases hr with hr | hr <;> simp [hst, hr, hu, hf, mulFloatOpt, ofFloatV]

lemma mwv_unknown_unit (p0 a r sp u st : String) (tail : List String)
    (hst : upperStr st = "A")
    (hr : upperStr r = "T" ∨ upperStr r = "R" ∨ upperStr r = "")
    (h1 : upperStr u ≠ "N") (h2 : upperStr u ≠ "M") (h3 : upperStr u ≠ "K") :
    mwvDecode (p0 :: a :: r :: sp :: u :: st :: tail) =
      .error (.nmeaParsingError
        ("Unknown MWV unit '" ++ upperStr u ++ "' (expected 'M', 'K', or 'N')")) := by
  simp only [mwvDecode, pyGet, List.get?, bind, Except.bind]
  rcases hr with hr | hr | hr <;> simp [hst, hr, h1, h2, h3]

/-- C8: an MWV status letter other than 'A' raises BadStatus (NMEAStatusError)
regardless of the other fields; reference 'T' selects the true-wind keys
twa/tws_knots while 'R' or an empty reference selects the apparent-wind keys
awa/aws_knots, and any other reference is the field-validation failure
(NMEAParsingError); the speed is returned in knots, unchanged for unit 'N',
multiplied by 1.94384 for 'M' and by 0.539957 for 'K' (so "10.0" converts to
exactly 19.4384 and 5.39957 knots in the rational model, within the claim's
1e-3 tolerance), and any other unit is the field-validation failure. -/
theorem C8_mwv_decoder :
    (∀ p0 a r sp u st : String, ∀ tail : List String, upperStr st ≠ "A" →
      mwvDecode (p0 :: a :: r :: sp :: u :: st :: tail) =
        .error (.nmeaStatusError
          ("Bad status ('" ++ upperStr st ++ "') for sentence type 'MWV'")))
    ∧ (∀ p0 a r sp u st : String, ∀ tail : List String,
        upperStr st = "A" → upperStr r ≠ "T" → upperStr r ≠ "R" → upperStr r ≠ "" →
      mwvDecode (p0 :: a :: r :: sp :: u :: st :: tail) =
        .error (.nmeaParsingError
          ("Unknown MWV reference '" ++ upperStr r ++ "' (expected 'T' or 'R')")))
    ∧ (∀ p0 a r sp u st : String, ∀ tail : List String,
        upperStr st = "A" → (upperStr r = "T" ∨ upperStr r = "R" ∨ upperStr r = "") →
        upperStr u ≠ "N" → upperStr u ≠ "M" → upperStr u ≠ "K" →
      mwvDecode (p0 :: a :: r :: sp :: u :: st :: tail) =
        .error (.nmeaParsingError
          ("Unknown MWV unit '" ++ upperStr u ++ "' (expected 'M', 'K', or 'N')")))
    ∧ (∀ p0 a r sp u st : String, ∀ tail : List String,
        upperStr st = "A" → upperStr r = "T" → upperStr u = "N" →
      mwvDecode (p0 :: a :: r :: sp :: u :: st :: tail) =
        .ok [("twa", ofFloatV (parse_float (some a))),
             ("tws_knots", ofFloatV (parse_float (some sp)))])
    ∧ (∀ p0 a r sp u st : String, ∀ tail : List String, ∀ f : PyFloat,
        upperStr st = "A" → upperStr r = "T" → parse_float (some sp) = some f →
        upperStr u = "M" →
      mwvDecode (p0 :: a :: r :: sp :: u :: st :: tail) =
        .ok [("twa", ofFloatV (parse_float (some a))),
             ("tws_knots", .vFloat (f.mulQ (1.94384 : ℚ)))])
    ∧ (∀ p0 a r sp u st : String, ∀ tail : List String, ∀ f : PyFloat,
        upperStr st = "A" → upperStr r = "T" → parse_float (some sp) = some f →
        upperStr u = "K" →
      mwvDecode (p0 :: a :: r :: sp :: u :: st :: tail) =
        .ok [("twa", ofFloatV (parse_float (some a))),
             ("tws_knots", .vFloat (f.mulQ (0.539957 : ℚ)))])
    ∧ (∀ p0 a r sp u st : String, ∀ tail : List String,
        upperStr st = "A" → (upperStr r = "R" ∨ upperStr r = "") → upperStr u = "N" →
      mwvDecode (p0 :: a :: r :: sp :: u :: st :: tail) =
        .ok [("awa", ofFloatV (parse_float (some a))),
             ("aws_knots", ofFloatV (parse_float (some sp)))])
    ∧ (∀ p0 a r sp u st : String, ∀ tail : List String, ∀ f : PyFloat,
        upperStr st = "A" → (upperStr r = "R" ∨ upperStr r = "") →
        parse_float (some sp) = some f → upperStr u = "M" →
      mwvDecode (p0 :: a :: r :: sp :: u :: st :: tail) =
        .ok [("awa", ofFloatV (parse_float (some a))),
             ("aws_knots", .vFloat (f.mulQ (1.94384 : ℚ)))])
    ∧ (∀ p0 a r sp u st : String, ∀ tail : List String, ∀ f : PyFloat,
        upperStr st = "A" → (upperStr r = "R" ∨ upperStr r = "") →
        parse_float (some sp) = some f → upperStr u = "K" →
      mwvDecode (p0 :: a :: r :: sp :: u :: st :: tail) =
        .ok [("awa", ofFloatV (parse_float (some a))),
             ("aws_knots", .vFloat (f.mulQ (0.539957 : ℚ)))])
    ∧ mwvDecode ["$WIMWV", "045.0", "R", "10.0", "M", "A"] =
        .ok [("awa", .vFloat (.fin 45)), ("aws_knots", .vFloat (.fin (19.4384 : ℚ)))]
    ∧ mwvDecode ["$WIMWV", "045.0", "R", "10.0", "K", "A"] =
        .ok [("awa", .vFloat (.fin 45)), ("aws_knots", .vFloat (.fin (5.39957 : ℚ)))] := by
  refine ⟨mwv_bad_status, mwv_unknown_reference, mwv_unknown_unit,
    mwv_true_knots, ?_, ?_, mwv_app_knots, ?_, ?_, ?_, ?_⟩
  · intro p0 a r sp u st tail f hst hr hf hu
    exact mwv_true_ms p0 a r sp u st tail f hst hr hf hu
  · intro p0 a r sp u st tail f hst hr hf hu
    exact mwv_true_kph p0 a r sp u st tail f hst hr hf hu
  · intro p0 a r sp u st tail f hst hr hf hu
    exact mwv_app_ms p0 a r sp u st tail f hst hr hf hu
  · intro p0 a r sp u st tail f hst hr hf hu
    exact mwv_app_kph p0 a r sp u st tail f hst hr hf hu
  · with_unfolding_all rfl
  · with_unfolding_all rfl

/-- C8 witness: the theorem applied at a concrete bad-status MWV sentence and
at a concrete km/h conversion. -/
theorem C8_mwv_decoder_witness :
    mwvDecode ["$WIMWV", "045.0", "R", "10.0", "N", "V"] =
      .error (.nmeaStatusError ("Bad status ('" ++ upperStr "V" ++ "') for sentence type 'MWV'"))
    ∧ mwvDecode ["$WIMWV", "045.0", "T", "10.0", "K", "A"] =
      .ok [("twa", ofFloatV (parse_float (some "045.0"))),
           ("tws_knots", .vFloat (PyFloat.mulQ (.fin 10) (0.539957 : ℚ)))] :=
  ⟨C8_mwv_decoder.1 "$WIMWV" "045.0" "R" "10.0" "N" "V" [] (by decide),
   (C8_mwv_decoder.2.2.2.2.2.1) "$WIMWV" "045.0" "T" "10.0" "K" "A" [] (.fin 10)
     (by decide) (by decide) (by with_unfolding_all rfl) (by decide)⟩

/-- C10: for a well-formed time string HHMMSS.FF — four leading digit
characters parsing as the two 2-digit integers h and m, and a tail parsing as
a finite seconds value q with 59 <= q < 60 that round() takes up to 60 —
parse_time formats the rounded seconds field in isolation: the result is the
hours and minutes exactly as parsed followed by ":60"; no carry into minutes
or hours happens (e.g. "151259.80" yields "15:12:60"). -/
theorem C10_parse_time_seconds_60 (c1 c2 c3 c4 : Char) (ss : String) (h m : ℤ) (q : ℚ)
    (hh : pyInt ⟨[c1, c2]⟩ = some h) (hm : pyInt ⟨[c3, c4]⟩ = some m)
    (hf : pyFloat ss = some (.fin q)) (h59 : 59 ≤ q) (h60 : q < 60)
    (hr : roundHalfEven q = 60) :
    parse_time (some ⟨c1 :: c2 :: c3 :: c4 :: ss.data⟩) =
      .ok (some (padZ 2 h ++ ":" ++ padZ 2 m ++ ":" ++ "60")) := by
  have e1 : sliceTo ⟨c1 :: c2 :: c3 :: c4 :: ss.data⟩ 2 = ⟨[c1, c2]⟩ := rfl
  have e2 : slice ⟨c1 :: c2 :: c3 :: c4 :: ss.data⟩ 2 4 = ⟨[c3, c4]⟩ := rfl
  have e3 : sliceFrom ⟨c1 :: c2 :: c3 :: c4 :: ss.data⟩ 4 = ss := rfl
  have e60 : padZ 2 (60 : ℤ) = "60" := rfl
  simp only [parse_time, e1, e2, e3, hh, hm, hf, hr, e60]

/-- C10 witness: the theorem applied at "151259.80". -/
theorem C10_parse_time_seconds_60_witness :
    pyInt "15" = some 15 ∧ (59 : ℚ) ≤ 299 / 5 ∧ (299 / 5 : ℚ) < 60 ∧
    roundHalfEven (299 / 5 : ℚ) = 60 ∧
    parse_time (some "151259.80") = .ok (some "15:12:60") := by
  refine ⟨rfl, by with_unfolding_all decide, by with_unfolding_all decide,
    by with_unfolding_all rfl, ?_⟩
  exact C10_parse_time_seconds_60 '1' '5' '1' '2' "59.80" 15 12 (299 / 5)
    rfl rfl (by with_unfolding_all rfl) (by with_unfolding_all decide)
    (by with_unfolding_all decide) (by with_unfolding_all rfl)

lemma idxOf_append_of_not_mem (c : Char) (l r : List Char) (hc : c ∉ l) :
    idxOf c (l ++ c :: r) = some l.length := by
  induction l with
  | nil => simp [idxOf]
  | cons x xs ih =>
    have hx : ¬x = c := fun h => hc (h ▸ List.mem_cons_self x xs)
    simp [idxOf, hx, ih (fun h => hc (List.mem_cons_of_mem x h))]

lemma dropWhile_of_all_false {p : Char → Bool} {l : List Char}
    (h : ∀ c ∈ l, p c = false) : l.dropWhile p = l := by
  cases l with
  | nil => rfl
  | cons x xs =>
    rw [List.dropWhile_cons, h x (List.mem_cons_self x xs)]
    simp

lemma stripWS_of_no_space {l : List Char} (h : ∀ c ∈ l, isSpace c = false) :
    stripWS l = l := by
  unfold stripWS
  rw [dropWhile_of_all_false h]
  rw [dropWhile_of_all_false (fun c hc => h c (List.mem_reverse.mp hc))]
  exact List.reverse_reverse l

lemma hexDigitChar_facts (d : ℕ) (hd : d < 16) :
    isSpace (hexDigitChar d) = false ∧ ¬hexDigitChar d = '-' ∧
    ¬hexDigitChar d = '+' ∧ ¬hexDigitChar d = 'x' ∧
    ¬hexDigitChar d = 'X' ∧ isHexDigitC (hexDigitChar d) = true ∧
    hexVal (hexDigitChar d) = d := by
  interval_cases d <;>
    exact ⟨rfl, by decide, by decide, by decide, by decide, rfl, rfl⟩

lemma checksum_lt_256 {l : List Char} (h : ∀ c ∈ l, c.toNat < 256) :
    checksum l < 256 := by
  unfold checksum
  suffices H : ∀ acc, acc < 256 → l.foldl (fun acc c => acc ^^^ c.toNat) acc < 256 by
    exact H 0 (by norm_num)
  induction l with
  | nil => intro acc ha; simpa using ha
  | cons x xs ih =>
    intro acc ha
    simp only [List.foldl_cons]
    exact ih (fun c hc => h c (List.mem_cons_of_mem x hc))
      _ (Nat.xor_lt_two_pow (n := 8) ha (h x (List.mem_cons_self x xs)))

lemma pyIntHex_hex2 (n : ℕ) (hn : n < 256) : pyIntHex (hex2 n) = some (n : ℤ) := by
  have h1 := hexDigitChar_facts (n / 16) (by omega)
  have h2 := hexDigitChar_facts (n % 16) (Nat.mod_lt n (by norm_num))
  unfold pyIntHex hex2
  rw [stripWS_of_no_space (by
    intro c hc
    simp only [List.mem_cons, List.not_mem_nil, or_false] at hc
    rcases hc with rfl | rfl
    · exact h1.1
    · exact h2.1)]
  simp only [splitSign, if_neg h1.2.1, if_neg h1.2.2.1]
  simp only [h2.2.2.2.1, h2.2.2.2.2.1, decide_False, Bool.or_self, Bool.and_false,
    Bool.false_eq_true, if_false]
  simp only [List.isEmpty_cons, Bool.not_false, List.all_cons, List.all_nil,
    h1.2.2.2.2.2.1, h2.2.2.2.2.2.1, Bool.and_true, Bool.true_and, if_true, Bool.and_self]
  simp only [hexDigitsVal, List.foldl_cons, List.foldl_nil, h1.2.2.2.2.2.2,
    h2.2.2.2.2.2.2]
  congr 1
  omega

lemma checksumPhase_no_star (s : String) (h : idxOf '*' s.data = none) :
    checksumPhase s = .ok s := by
  simp only [checksumPhase, h]

lemma checksumPhase_mismatch (s : String) (a : ℕ) (v : ℤ)
    (hi : idxOf '*' s.data = some a)
    (hv : pyIntHex (sliceFrom s (a + 1)) = some v)
    (hne : (checksum ((s.data.take a).drop 1) : ℤ) ≠ v) :
    checksumPhase s = .error (.nmeaParsingError ("Checksum mismatch for sentence " ++ s)) := by
  simp only [checksumPhase, hi, hv, bind, Except.bind]
  rw [if_pos hne]

lemma checksumPhase_roundtrip (body : String) (hb : '*' ∉ body.data)
    (hascii : ∀ c ∈ body.data, c.toNat < 256) :
    checksumPhase ("$" ++ body ++ "*" ++ hex2 (checksum body.data)) = .ok ("$" ++ body) := by
  set cs := checksum body.data with hcs
  set s := "$" ++ body ++ "*" ++ hex2 cs with hs
  have hdata : s.data = ('$' :: body.data) ++ '*' :: (hex2 cs).data := by
    show (('$' :: body.data) ++ ['*']) ++ (hex2 cs).data = _
    simp
  have hstar : '*' ∉ '$' :: body.data := by
    intro hmem
    rcases List.mem_cons.mp hmem with h | h
    · exact absurd h.symm (by decide)
    · exact hb h
  have hidx : idxOf '*' s.data = some (body.data.length + 1) := by
    rw [hdata]
    have := idxOf_append_of_not_mem '*' ('$' :: body.data) (hex2 cs).data hstar
    simpa using this
  have htake : s.data.take (body.data.length + 1) = '$' :: body.data := by
    rw [hdata]
    have : ('$' :: body.data).length = body.data.length + 1 := by simp
    rw [← this, List.take_left]
  have hdrop : s.data.drop (body.data.length + 1 + 1) = (hex2 cs).data := by
    rw [hdata]
    have e : ('$' :: body.data) ++ '*' :: (hex2 cs).data =
        (('$' :: body.data) ++ ['*']) ++ (hex2 cs).data := by simp
    rw [e]
    have hlen : (('$' :: body.data) ++ ['*']).length = body.data.length + 1 + 1 := by simp
    rw [← hlen, List.drop_left]
  have hsliceF : sliceFrom s (body.data.length + 1 + 1) = hex2 cs := by
    show String.mk (s.data.drop (body.data.length + 1 + 1)) = hex2 cs
    rw [hdrop]
  have hhex : pyIntHex (sliceFrom s (body.data.length + 1 + 1)) = some (cs : ℤ) := by
    rw [hsliceF]
    exact pyIntHex_hex2 cs (checksum_lt_256 hascii)
  have hck : checksum ((s.data.take (body.data.length + 1)).drop 1) = cs := by
    rw [htake]
    rfl
  simp only [checksumPhase, hidx, hhex, hck, bind, Except.bind, ne_eq,
    not_true_eq_false, if_false, ite_false]
  have : sliceTo s (body.data.length + 1) = "$" ++ body := by
    show String.mk (s.data.take (body.data.length + 1)) = "$" ++ body
    rw [htake]
    rfl
  rw [this]

/-- C7: the checksum of a body is the XOR fold of its character values (74 for
"GPGGA,1,2,3"); for every body of byte-sized characters without an embedded
'*', validating the body with '*' and its two-character hexadecimal checksum
appended succeeds and returns the sentence with the checksum suffix stripped;
a present checksum whose parsed value differs from the computed one fails with
the checksum-mismatch failure naming the sentence; a sentence with no '*' is
passed through with checksum checking skipped, not treated as an error. -/
theorem C7_checksum_roundtrip :
    checksum "GPGGA,1,2,3".data = 74
    ∧ (∀ body : String, '*' ∉ body.data → (∀ c ∈ body.data, c.toNat < 256) →
        checksumPhase ("$" ++ body ++ "*" ++ hex2 (checksum body.data)) = .ok ("$" ++ body))
    ∧ (∀ (s : String) (a : ℕ) (v : ℤ), idxOf '*' s.data = some a →
        pyIntHex (sliceFrom s (a + 1)) = some v →
        (checksum ((s.data.take a).drop 1) : ℤ) ≠ v →
        checksumPhase s = .error (.nmeaParsingError ("Checksum mismatch for sentence " ++ s)))
    ∧ (∀ s : String, idxOf '*' s.data = none → checksumPhase s = .ok s) :=
  ⟨rfl, checksumPhase_roundtrip, checksumPhase_mismatch, checksumPhase_no_star⟩

/-- C7 witness: the round trip applied at body "GPGGA,1,2,3" (checksum 74 =
0x4a), plus the skip clause at a checksum-free sentence. -/
theorem C7_checksum_roundtrip_witness :
    ('*' ∉ "GPGGA,1,2,3".data)
    ∧ checksumPhase "$GPGGA,1,2,3*4a" = .ok "$GPGGA,1,2,3"
    ∧ checksumPhase "$GPGGA,1,2,3" = .ok "$GPGGA,1,2,3" :=
  ⟨by decide,
   C7_checksum_roundtrip.2.1 "GPGGA,1,2,3" (by decide) (by decide),
   C7_checksum_roundtrip.2.2.2 "$GPGGA,1,2,3" (by decide)⟩

lemma isDigitC_facts {c : Char} (h : isDigitC c = true) :
    isSpace c = false ∧ ¬c = '-' ∧ ¬c = '+' := by
  have key : ∀ x : Char, isDigitC x = false → ¬c = x := by
    intro x hx heq
    subst heq
    rw [h] at hx
    cases hx
  refine ⟨?_, key '-' (by decide), key '+' (by decide)⟩
  simp [isSpace, key ' ' (by decide), key '\t' (by decide), key '\n' (by decide),
    key '\x0d' (by decide), key '\x0b' (by decide), key '\x0c' (by decide)]

lemma takeWhile_of_all {p : Char → Bool} {l : List Char}
    (h : ∀ c ∈ l, p c = true) : l.takeWhile p = l ∧ l.dropWhile p = [] := by
  induction l with
  | nil => exact ⟨rfl, rfl⟩
  | cons x xs ih =>
    have hx := h x (List.mem_cons_self x xs)
    have := ih (fun c hc => h c (List.mem_cons_of_mem x hc))
    rw [List.takeWhile_cons, List.dropWhile_cons, hx]
    simpa using this

lemma span_append_of_all {p : Char → Bool} {pre : List Char} (x : Char)
    (post : List Char) (hpre : ∀ c ∈ pre, p c = true) (hx : p x = false) :
    (pre ++ x :: post).span p = (pre, x :: post) := by
  rw [List.span_eq_take_drop]
  induction pre with
  | nil => simp [List.takeWhile_cons, List.dropWhile_cons, hx]
  | cons y ys ih =>
    have hy := hpre y (List.mem_cons_self y ys)
    have := ih (fun c hc => hpre c (List.mem_cons_of_mem y hc))
    simp only [List.cons_append, List.takeWhile_cons, List.dropWhile_cons, hy]
    simp only [Prod.mk.injEq] at this
    simp [this.1, this.2]

lemma idxOf_decomp (c : Char) (l : List Char) (k : ℕ) (h : idxOf c l = some k) :
    l = l.take k ++ c :: l.drop (k + 1) := by
  induction l generalizing k with
  | nil => exact absurd h (by simp [idxOf])
  | cons x xs ih =>
    by_cases hx : x = c
    · subst hx
      simp only [idxOf, if_pos, Option.some.injEq] at h
      subst h
      simp
    · simp only [idxOf, if_neg hx, Option.map_eq_some'] at h
      obtain ⟨k0, hk0, hk⟩ := h
      subst hk
      simpa using ih k0 hk0

lemma idxOf_lt_length {c : Char} {l : List Char} {k : ℕ} (h : idxOf c l = some k) :
    k < l.length := by
  induction l generalizing k with
  | nil => exact absurd h (by simp [idxOf])
  | cons x xs ih =>
    by_cases hx : x = c
    · subst hx
      simp only [idxOf, if_pos, Option.some.injEq] at h
      subst h
      simp
    · simp only [idxOf, if_neg hx, Option.map_eq_some'] at h
      obtain ⟨k0, hk0, hk⟩ := h
      subst hk
      simpa using ih hk0

lemma dmMatch_elim {cs d m : List Char} (h : dmMatch cs = some (d, m)) :
    ∃ pre post, cs = pre ++ '.' :: post ∧ (∀ c ∈ pre, isDigitC c = true) ∧
      3 ≤ pre.length ∧ post ≠ [] ∧ (∀ c ∈ post, isDigitC c = true) ∧
      d = pre.take (pre.length - 2) ∧ m = pre.drop (pre.length - 2) ++ '.' :: post := by
  unfold dmMatch at h
  cases hidx : idxOf '.' cs with
  | none => rw [hidx] at h; cases h
  | some k =>
    simp only [hidx] at h
    by_cases hcond : (3 ≤ k && (cs.take k).all isDigitC && !(cs.drop (k + 1)).isEmpty
        && (cs.drop (k + 1)).all isDigitC) = true
    · rw [if_pos hcond] at h
      have hklen : k < cs.length := idxOf_lt_length hidx
      have htlen : (cs.take k).length = k := by
        simp [List.length_take, Nat.min_eq_left (le_of_lt hklen)]
      simp only [Bool.and_eq_true, decide_eq_true_eq, List.all_eq_true,
        Bool.not_eq_true'] at hcond
      obtain ⟨⟨⟨hk3, hpre⟩, hq⟩, hpost⟩ := hcond
      have hne : cs.drop (k + 1) ≠ [] := by
        intro e
        rw [e] at hq
        cases hq
      simp only [Option.some.injEq, Prod.mk.injEq] at h
      refine ⟨cs.take k, cs.drop (k + 1), idxOf_decomp '.' cs k hidx, hpre, ?_, hne, hpost,
        ?_, ?_⟩
      · omega
      · rw [← h.1, htlen]
      · rw [← h.2, htlen]
    · rw [if_neg hcond] at h
      cases h

lemma is_number_of_dmMatch {s : String} {d m : List Char} (h : dmMatch s.data = some (d, m)) :
    is_number s = true := by
  obtain ⟨pre, post, hcs, hpre, hlen, hpost_ne, hpost, -, -⟩ := dmMatch_elim h
  have hnospace : ∀ c ∈ s.data, isSpace c = false := by
    rw [hcs]
    intro c hc
    rcases List.mem_append.mp hc with hpc | hpc
    · exact (isDigitC_facts (hpre c hpc)).1
    · rcases List.mem_cons.mp hpc with rfl | hpc
      · rfl
      · exact (isDigitC_facts (hpost c hpc)).1
  obtain ⟨p0, pre', hpre0⟩ : ∃ p0 pre', pre = p0 :: pre' := by
    cases pre with
    | nil => simp at hlen
    | cons a b => exact ⟨a, b, rfl⟩
  have hp0 := isDigitC_facts (hpre p0 (by rw [hpre0]; exact List.mem_cons_self p0 pre'))
  have hdot : '.' ∈ lowerL s.data := by
    rw [hcs]
    have : ('.' : Char).toLower = '.' := by decide
    rw [← this]
    exact List.mem_map_of_mem Char.toLower (by simp)
  have hni : ¬(lowerL s.data = "inf".data) := by
    intro he; rw [he] at hdot; exact absurd hdot (by decide)
  have hnin : ¬(lowerL s.data = "infinity".data) := by
    intro he; rw [he] at hdot; exact absurd hdot (by decide)
  have hnn : ¬(lowerL s.data = "nan".data) := by
    intro he; rw [he] at hdot; exact absurd hdot (by decide)
  have hsplit : splitSign s.data = (false, s.data) := by
    rw [hcs, hpre0]
    simp only [List.cons_append, splitSign, if_neg hp0.2.1, if_neg hp0.2.2]
  have hspan : (s.data).span isDigitC = (pre, '.' :: post) := by
    rw [hcs]
    exact span_append_of_all '.' post hpre (by decide)
  have hspan2 : post.span isDigitC = (post, []) := by
    rw [List.span_eq_take_drop, (takeWhile_of_all hpost).1, (takeWhile_of_all hpost).2]
  have hlit : (pyFloatLit s.data).isSome = true := by
    unfold pyFloatLit
    rw [hspan]
    have hemp : pre.isEmpty = false := by rw [hpre0]; rfl
    simp [(takeWhile_of_all hpost).1, (takeWhile_of_all hpost).2, List.span_eq_take_drop,
      hemp, parseExp]
  unfold is_number pyFloat
  simp only [stripWS_of_no_space hnospace, hsplit, hni, hnin, hnn]
  simpa [parseExp] using hlit

lemma dm_to_sd_of_dmMatch {s : String} {d m : List Char}
    (h : dmMatch s.data = some (d, m)) :
    dm_to_sd (some s) = .ok (some (litVal d + litVal m / 60)) := by
  have hnum := is_number_of_dmMatch h
  have hs0 : ¬s = "0" := by
    intro he; subst he; simp [dmMatch, idxOf] at h
  have hse : ¬s = "" := by
    intro he; subst he; simp [dmMatch, idxOf] at h
  unfold dm_to_sd
  simp [hnum, hse, hs0, h]

lemma dm_to_sd_nonnumeric (s : String) (h : is_number s = false) :
    dm_to_sd (some s) = .ok none := by
  unfold dm_to_sd
  simp [h]

lemma dm_to_sd_bad_grammar (s : String) (hn : is_number s = true) (h1 : ¬s = "")
    (h2 : ¬s = "0") (hm : dmMatch s.data = none) :
    dm_to_sd (some s) =
      .error (.coordinateFormatError
        ("Geographic coordinate value '" ++ s ++ "' is not valid DDDMM.MMM")) := by
  unfold dm_to_sd
  simp [hn, h1, h2, hm]

lemma hemisphere_signs (s : String) (q : ℚ) (h : dm_to_sd (some s) = .ok (some q)) :
    parse_latitude (some s) "S" = .ok (some (-q))
    ∧ parse_latitude (some s) "N" = .ok (some q)
    ∧ parse_longitude (some s) "W" = .ok (some (-q))
    ∧ parse_longitude (some s) "E" = .ok (some q) := by
  refine ⟨?_, ?_, ?_, ?_⟩ <;> simp [parse_latitude, parse_longitude, h, bind, Except.bind]

/-- C5 (amended): the coordinate parser converts degrees/minutes text matching
the (\d+)(\d\d\.\d+) grammar as float(degrees) + float(minutes)/60
("4530.000" to 45.5, the literal "0" to exactly 0.0); hemisphere 'S'/'W'
negates a parsed value while 'N'/'E' leave it unchanged; an empty or absent
field yields the no-value marker without an exception; a NON-NUMERIC non-empty
input also yields the no-value marker (not the hard failure the original claim
states); and a NUMERIC input that does not match the degrees/minutes grammar
is the hard CoordinateFormatError failure. -/
theorem C5_coordinate_parser_amended :
    dm_to_sd (some "4530.000") = .ok (some (91 / 2 : ℚ))
    ∧ dm_to_sd (some "0") = .ok (some 0)
    ∧ (∀ (s : String) (d m : List Char), dmMatch s.data = some (d, m) →
        dm_to_sd (some s) = .ok (some (litVal d + litVal m / 60)))
    ∧ (∀ (s : String) (q : ℚ), dm_to_sd (some s) = .ok (some q) →
        parse_latitude (some s) "S" = .ok (some (-q))
        ∧ parse_latitude (some s) "N" = .ok (some q)
        ∧ parse_longitude (some s) "W" = .ok (some (-q))
        ∧ parse_longitude (some s) "E" = .ok (some q))
    ∧ dm_to_sd none = .ok none ∧ dm_to_sd (some "") = .ok none
    ∧ parse_latitude none "N" = .ok none ∧ parse_latitude (some "") "N" = .ok none
    ∧ (∀ s : String, is_number s = false → dm_to_sd (some s) = .ok none)
    ∧ (∀ s : String, is_number s = true → ¬s = "" → ¬s = "0" →
        dmMatch s.data = none →
        dm_to_sd (some s) =
          .error (.coordinateFormatError
            ("Geographic coordinate value '" ++ s ++ "' is not valid DDDMM.MMM"))) :=
  ⟨by with_unfolding_all rfl, rfl,
   fun s d m h => dm_to_sd_of_dmMatch h,
   hemisphere_signs,
   rfl, rfl, rfl, rfl,
   dm_to_sd_nonnumeric,
   dm_to_sd_bad_grammar⟩

/-- C5 witness: the grammar clause applied at "4530.000", the hemisphere
clause at its value 45.5, the lenient clause at "abc", and the hard-failure
clause at the numeric non-matching input "5". -/
theorem C5_coordinate_parser_amended_witness :
    dmMatch "4530.000".data = some ("45".data, "30.000".data)
    ∧ dm_to_sd (some "4530.000") = .ok (some (litVal "45".data + litVal "30.000".data / 60))
    ∧ parse_latitude (some "4530.000") "S" = .ok (some (-(91 / 2 : ℚ)))
    ∧ is_number "abc" = false ∧ dm_to_sd (some "abc") = .ok none
    ∧ is_number "5" = true ∧ dmMatch "5".data = none
    ∧ dm_to_sd (some "5") =
        .error (.coordinateFormatError
          ("Geographic coordinate value '" ++ "5" ++ "' is not valid DDDMM.MMM")) :=
  ⟨by decide,
   C5_coordinate_parser_amended.2.2.1 "4530.000" "45".data "30.000".data (by decide),
   (C5_coordinate_parser_amended.2.2.2.1 "4530.000" (91 / 2)
     (by with_unfolding_all rfl)).1,
   rfl,
   C5_coordinate_parser_amended.2.2.2.2.2.2.2.2.1 "abc" rfl,
   rfl, by decide,
   C5_coordinate_parser_amended.2.2.2.2.2.2.2.2.2 "5" rfl (by decide) (by decide)
     (by decide)⟩

lemma parse_no_dollar (now : ℤ) (s : String) (h : startsDollar s = false) :
    parse now s = .error (.nmeaParsingError ("Invalid NMEA sentence '" ++ s ++ "'")) := by
  unfold parse
  rw [h]
  rfl

lemma splitChar_no_sep {sep : Char} {l : List Char} (h : ∀ c ∈ l, ¬c = sep) :
    splitChar sep l = [l] := by
  induction l with
  | nil => rfl
  | cons x xs ih =>
    have hx := h x (List.mem_cons_self x xs)
    simp only [splitChar, if_neg hx, ih (fun c hc => h c (List.mem_cons_of_mem x hc))]

lemma decoderFor_short {t : String} (h : t.length ≤ 2) : decoderFor t = none := by
  have key : ∀ u : String, u.length = 3 → ¬t = u := by
    intro u hu he
    subst he
    omega
  unfold decoderFor
  rw [if_neg (key "dpt" rfl), if_neg (key "gga" rfl), if_neg (key "gll" rfl),
    if_neg (key "hdt" rfl), if_neg (key "mda" rfl), if_neg (key "mwv" rfl),
    if_neg (key "rmc" rfl), if_neg (key "rot" rfl), if_neg (key "rsa" rfl),
    if_neg (key "vlw" rfl), if_neg (key "vtg" rfl), if_neg (key "vwr" rfl)]

lemma lowerStr_length (s : String) : (lowerStr s).length = s.length := by
  show (lowerL s.data).length = s.data.length
  simp [lowerL]

set_option maxRecDepth 8000 in
lemma parse_short_body (now : ℤ) (s : String) (hd : startsDollar s = true)
    (hstar : idxOf '*' s.data = none) (hws : ∀ c ∈ s.data, isSpace c = false)
    (hcomma : ∀ c ∈ s.data, ¬c = ',') (hlen : s.length ≤ 5) :
    parse now s = .error (.unknownNMEASentence (sliceFrom s 3)) := by
  have hstrip : pyStrip s = s := by
    show String.mk (stripWS s.data) = s
    rw [stripWS_of_no_space hws]
  have hsplit : pySplit (pyStrip s) ',' = [s] := by
    rw [hstrip]
    show (splitChar ',' s.data).map (fun l => String.mk l) = [s]
    rw [splitChar_no_sep hcomma]
    rfl
  have hshort : (lowerStr (sliceFrom s 3)).length ≤ 2 := by
    rw [lowerStr_length]
    show (s.data.drop 3).length ≤ 2
    rw [List.length_drop]
    have : s.data.length ≤ 5 := hlen
    omega
  unfold parse
  rw [hd]
  simp only [Bool.not_true, Bool.false_eq_true, if_false]
  rw [checksumPhase_no_star s hstar]
  simp only [bind, Except.bind]
  rw [hsplit]
  simp only [List.headD_cons]
  rw [decoderFor_short hshort]

/-- C1 (amended): the Publish State is initialized to 0 for every type (not
"never published" = -∞), so with interval 10000 a first record is accepted
only once its timestamp has reached the interval: at t=0 it is suppressed,
t=10000 is accepted and recorded, t=15000 suppressed, t=20000 accepted; an
unconfigured type always returns without publishing and without error; the
last-published timestamp is updated exactly on acceptance and left unchanged
on suppression. -/
theorem C1_publish_gate_amended :
    (∀ ty, initGate.last_published ty = 0)
    ∧ (∀ (iv : String → Option ℚ) (st : GateState) (ty : String) (t : ℚ) (b : Bool),
        iv ty = none → publishGate iv st ty t b = (st, false))
    ∧ (∀ (iv : String → Option ℚ) (st : GateState) (ty : String) (t q : ℚ) (b : Bool),
        iv ty = some q → t - st.last_published ty < q →
        publishGate iv st ty t b = (st, false))
    ∧ (∀ (iv : String → Option ℚ) (st : GateState) (ty : String) (t q : ℚ),
        iv ty = some q → ¬(t - st.last_published ty < q) →
        publishGate iv st ty t true =
          (⟨fun k => if k = ty then t else st.last_published k⟩, true))
    ∧ gateRun intervalsGGA initGate
        [("GGA", 0), ("GGA", 5000), ("GGA", 10000), ("GGA", 15000), ("GGA", 20000)] =
        [false, false, true, false, true]
    ∧ gateRun intervalsGGA initGate [("ZDA", 0), ("ZDA", 99999)] = [false, false] := by
  refine ⟨fun ty => rfl, ?_, ?_, ?_, by with_unfolding_all rfl, by with_unfolding_all rfl⟩
  · intro iv st ty t b h
    simp [publishGate, h]
  · intro iv st ty t q b h hlt
    simp [publishGate, h, hlt]
  · intro iv st ty t q h hlt
    simp [publishGate, h, hlt]

/-- C1 witness: the unconfigured-type clause at "ZDA" and the suppression
clause at the first GGA record at t=0 (0 - 0 < 10000). -/
theorem C1_publish_gate_amended_witness :
    intervalsGGA "ZDA" = none
    ∧ publishGate intervalsGGA initGate "ZDA" 5 true = (initGate, false)
    ∧ intervalsGGA "GGA" = some 10000
    ∧ publishGate intervalsGGA initGate "GGA" 0 true = (initGate, false) :=
  ⟨rfl, C1_publish_gate_amended.2.1 intervalsGGA initGate "ZDA" 5 true rfl,
   rfl, C1_publish_gate_amended.2.2.1 intervalsGGA initGate "GGA" 0 10000 true rfl
     (by with_unfolding_all decide)⟩

/-- C2 (amended): decode failures of the taxonomy's kinds are typed —
malformed start, unknown sentence type, bad status, field validation,
coordinate format, checksum mismatch — but two raw interpreter exceptions do
escape the decode-one-sentence boundary untyped: an out-of-range field index
on a sentence with too few fields (IndexError) and a conversion error on a
non-hexadecimal checksum suffix (ValueError). -/
theorem C2_failure_taxonomy_amended :
    (∀ (now : ℤ) (s : String), startsDollar s = false →
      parse now s = .error (.nmeaParsingError ("Invalid NMEA sentence '" ++ s ++ "'")))
    ∧ parse 0 "$GPZZZ,1" = .error (.unknownNMEASentence "ZZZ")
    ∧ parse 0 "$WIMWV,045.0,R,10.0,N,V" =
        .error (.nmeaStatusError "Bad status ('V') for sentence type 'MWV'")
    ∧ parse 0 "$HEHDT,123.4,X" =
        .error (.nmeaParsingError "Unknown HDT reference 'X' (expected 'T')")
    ∧ parse 0 "$GPGGA,,5,N,,,1,08,0.9,545.4,M" =
        .error (.coordinateFormatError
          "Geographic coordinate value '5' is not valid DDDMM.MMM")
    ∧ parse 0 "$GPGGA,1,2,3*00" =
        .error (.nmeaParsingError "Checksum mismatch for sentence $GPGGA,1,2,3*00")
    ∧ parse 0 "$GPGGA,1" = .error .indexError
    ∧ isTypedFailure .indexError = false
    ∧ parse 0 "$GPGGA,1*ZZ" = .error (.valueError "invalid literal for int with base 16")
    ∧ isTypedFailure (.valueError "invalid literal for int with base 16") = false :=
  ⟨parse_no_dollar, by with_unfolding_all rfl, by with_unfolding_all rfl,
   by with_unfolding_all rfl, by with_unfolding_all rfl, by with_unfolding_all rfl,
   by with_unfolding_all rfl, rfl, by with_unfolding_all rfl, rfl⟩

/-- C2 witness: the malformed-start clause applied at the concrete input
"GPGGA" (no leading '$'). -/
theorem C2_failure_taxonomy_amended_witness :
    startsDollar "GPGGA" = false
    ∧ parse 0 "GPGGA" = .error (.nmeaParsingError "Invalid NMEA sentence 'GPGGA'") :=
  ⟨rfl, C2_failure_taxonomy_amended.1 0 "GPGGA" rfl⟩

/-- C9 (amended): every input not starting with '$' fails with the
MalformedSentence kind (NMEAParsingError); but an input whose body is too
short to contain the 3-character type code (no '*', no comma, no whitespace,
total length at most 5) is instead reported as UnknownNMEASentence carrying
the truncated — possibly empty — type code, not as MalformedSentence. -/
theorem C9_malformed_sentence_amended :
    (∀ (now : ℤ) (s : String), startsDollar s = false →
        parse now s = .error (.nmeaParsingError ("Invalid NMEA sentence '" ++ s ++ "'")))
    ∧ (∀ (now : ℤ) (s : String), startsDollar s = true → idxOf '*' s.data = none →
        (∀ c ∈ s.data, isSpace c = false) → (∀ c ∈ s.data, ¬c = ',') → s.length ≤ 5 →
        parse now s = .error (.unknownNMEASentence (sliceFrom s 3)))
    ∧ parse 0 "$GPGG" = .error (.unknownNMEASentence "GG")
    ∧ parse 0 "$GP" = .error (.unknownNMEASentence "") :=
  ⟨parse_no_dollar, parse_short_body, by with_unfolding_all rfl,
   by with_unfolding_all rfl⟩

/-- C9 witness: the malformed-start clause at "GPGGA" and the short-body
clause at "$GPGG". -/
theorem C9_malformed_sentence_amended_witness :
    parse 7 "GPGGA" = .error (.nmeaParsingError "Invalid NMEA sentence 'GPGGA'")
    ∧ parse 7 "$GPGG" = .error (.unknownNMEASentence "GG") :=
  ⟨C9_malformed_sentence_amended.1 7 "GPGGA" rfl,
   C9_malformed_sentence_amended.2.1 7 "$GPGG" rfl (by decide) (by decide) (by decide)
     (by decide)⟩

/-- Satellite-group count of a decoded GSV record. -/
def satCount (r : Except PyError NmeaDict) : Option ℕ :=
  match r with
  | .ok d =>
    match dictGet d "satellites" with
    | some (.vList xs) => some xs.length
    | _ => none
  | .error _ => none

/-- C3: the claim says the decoded magnetic-variation output equals the
numeric value of field 10, signed negative when field 11 is 'W' and left
unchanged otherwise.  The code stores the raw string of field 10 and the 'W'
branch multiplies that string by -1, which in Python is sequence repetition
and yields the empty string: on the failing input below the output is the
string "" where the claim requires the number -3.1 (and without 'W' it is the
string "3.1", not a number). -/
theorem C3_rmc_magnetic_variation_string_bug :
    (rmcDecode ["$GPRMC", "151209.00", "A", "4530.000", "N", "01234.000", "E",
        "5.0", "10.0", "100525", "3.1", "W"]).map
      (fun d => dictGet d "magnetic_variation") = .ok (some (.vStr ""))
    ∧ (rmcDecode ["$GPRMC", "151209.00", "A", "4530.000", "N", "01234.000", "E",
        "5.0", "10.0", "100525", "3.1", "E"]).map
      (fun d => dictGet d "magnetic_variation") = .ok (some (.vStr "3.1")) :=
  ⟨by with_unfolding_all rfl, by with_unfolding_all rfl⟩

/-- C4: the claim says one satellite group is emitted for every complete
4-field group after the three header fields.  The loop range(4, len(parts)-4, 4)
stops one group early whenever the trailing fields are an exact multiple of
four: with 8 fields after the header (two complete groups) only one group is
produced; the claim's 11-field example (two complete groups plus a partial
third) does yield exactly two. -/
theorem C4_gsv_drops_last_complete_group :
    satCount (gsvDecode ["$GPGSV", "2", "1", "08",
        "01", "40", "083", "46", "02", "17", "308", "41"]) = some 1
    ∧ satCount (gsvDecode ["$GPGSV", "3", "1", "11",
        "01", "40", "083", "46", "02", "17", "308", "41", "03", "25", "200"]) = some 2 :=
  ⟨by with_unfolding_all rfl, by with_unfolding_all rfl⟩

/-- C6: the claim (and the spec's general decoder policy) says an empty field
where a number is expected decodes to the no-value marker and never fails.
With an empty MWV speed and unit 'M' or 'K' the code multiplies None by the
conversion factor, and with an empty VWR angle and side letter 'L' it
multiplies None by -1; both raise an uncaught TypeError. -/
theorem C6_empty_numeric_field_typeerror :
    mwvDecode ["$WIMWV", "045.0", "R", "", "M", "A"] = .error .typeError
    ∧ mwvDecode ["$WIMWV", "045.0", "R", "", "K", "A"] = .error .typeError
    ∧ vwrDecode ["$IIVWR", "", "L", "10.0", "N", "5.1", "M", "18.5"] = .error .typeError
    ∧ mwvDecode ["$WIMWV", "045.0", "R", "", "N", "A"] =
        .ok [("awa", .vFloat (.fin 45)), ("aws_knots", .vNone)] :=
  ⟨by with_unfolding_all rfl, by with_unfolding_all rfl, by with_unfolding_all rfl,
   by with_unfolding_all rfl⟩

/-- C1 counterexample: with interval 10000 for type GGA, the claim says a
record at t=0 is accepted, t=5000 suppressed, t=10000 accepted.  Because
last_published is a defaultdict initialized to 0 (not "never published" = -∞),
the record at t=0 computes 0 - 0 < 10000 and is suppressed: the run yields
[false, false, true], not [true, false, true]. -/
theorem C1_gate_t0_suppressed_counterexample :
    gateRun intervalsGGA initGate [("GGA", 0), ("GGA", 5000), ("GGA", 10000)] =
      [false, false, true] :=
  by with_unfolding_all rfl

/-- C2 counterexample: decoding "$GPGGA,1" reaches the GGA decoder with a
2-element field list, and the out-of-range access parts[2] escapes as a raw
IndexError, which is none of the claim's typed failure kinds. -/
theorem C2_untyped_indexerror_counterexample :
    parse 0 "$GPGGA,1" = .error .indexError ∧ isTypedFailure .indexError = false :=
  ⟨by with_unfolding_all rfl, rfl⟩

/-- C5 counterexample: the claim says every non-empty non-numeric input is a
hard failure (CoordinateFormatError).  dm_to_sd checks is_number first and
returns None for a non-numeric string: "abc" yields the no-value marker and no
error. -/
theorem C5_nonnumeric_yields_none_counterexample :
    dm_to_sd (some "abc") = .ok none ∧ is_number "abc" = false :=
  ⟨by with_unfolding_all rfl, by with_unfolding_all rfl⟩

/-- C9 counterexample: the claim says an input whose body is too short to
contain the 3-character type code fails with MalformedSentence.  "$GPGG" (body
of 4 characters) instead flows to the registry with the truncated code "GG"
and fails as UnknownNMEASentence (the UnknownSentenceType kind), not as the
MalformedSentence kind (NMEAParsingError). -/
theorem C9_short_body_unknown_type_counterexample :
    parse 0 "$GPGG" = .error (.unknownNMEASentence "GG")
    ∧ parse 0 "$" = .error (.unknownNMEASentence "") :=
  ⟨by with_unfolding_all rfl, by with_unfolding_all rfl⟩

end Nmea
